import Mathlib

/-!
Shallow embedding of the impact-simulation engine of this repository
(`impactor-2025/backend/app/services/physics.py`,
`impactor-2025/backend/app/services/economic_analysis.py`, and the request
validation of `impactor-2025/backend/app/models.py`), together with theorems
settling the specification claims about it.

Python floats are modelled by real numbers; quantities whose computations stay
in the rational fragment (zone radii, populations, monetary amounts) are
modelled by rationals so that concrete instances evaluate by `decide`.
-/

namespace Meteor

/-- `np.radians` / `math.radians`: degrees to radians. -/
noncomputable def radians (x : ℝ) : ℝ := x * Real.pi / 180

/-- Python `math.atan2(y, x)` (also `np.arctan2`), case-split exactly as the
C99 function behaves on finite inputs: for `x > 0` it is `arctan (y / x)`,
for `x < 0` it adds or subtracts `π` according to the sign of `y`, on the
`x = 0` axis it returns `±π/2`, and `atan2 0 0 = 0`. -/
noncomputable def atan2 (y x : ℝ) : ℝ :=
  if 0 < x then Real.arctan (y / x)
  else if x < 0 then
    (if 0 ≤ y then Real.arctan (y / x) + Real.pi else Real.arctan (y / x) - Real.pi)
  else if 0 < y then Real.pi / 2
  else if y < 0 then -(Real.pi / 2)
  else 0

/-- Cartesian 3-vector, the model of a `np.ndarray` of length 3. -/
def Vec3 : Type := ℝ × ℝ × ℝ

/-- 3×3 matrix, the model of the `np.array` rotation matrices built in
`kepler_to_cartesian`. -/
structure Mat3 where
  a11 : ℝ
  a12 : ℝ
  a13 : ℝ
  a21 : ℝ
  a22 : ℝ
  a23 : ℝ
  a31 : ℝ
  a32 : ℝ
  a33 : ℝ

/-- Matrix-matrix product (`A @ B`). -/
noncomputable def matMul (A B : Mat3) : Mat3 where
  a11 := A.a11 * B.a11 + A.a12 * B.a21 + A.a13 * B.a31
  a12 := A.a11 * B.a12 + A.a12 * B.a22 + A.a13 * B.a32
  a13 := A.a11 * B.a13 + A.a12 * B.a23 + A.a13 * B.a33
  a21 := A.a21 * B.a11 + A.a22 * B.a21 + A.a23 * B.a31
  a22 := A.a21 * B.a12 + A.a22 * B.a22 + A.a23 * B.a32
  a23 := A.a21 * B.a13 + A.a22 * B.a23 + A.a23 * B.a33
  a31 := A.a31 * B.a11 + A.a32 * B.a21 + A.a33 * B.a31
  a32 := A.a31 * B.a12 + A.a32 * B.a22 + A.a33 * B.a32
  a33 := A.a31 * B.a13 + A.a32 * B.a23 + A.a33 * B.a33

/-- Matrix-vector product (`A @ v`). -/
noncomputable def matVec (A : Mat3) (v : Vec3) : Vec3 :=
  (A.a11 * v.1 + A.a12 * v.2.1 + A.a13 * v.2.2,
   A.a21 * v.1 + A.a22 * v.2.1 + A.a23 * v.2.2,
   A.a31 * v.1 + A.a32 * v.2.1 + A.a33 * v.2.2)

/-- `np.linalg.norm` of a 3-vector. -/
noncomputable def norm3 (v : Vec3) : ℝ :=
  Real.sqrt (v.1 ^ 2 + v.2.1 ^ 2 + v.2.2 ^ 2)

/-- One fuelled round of the Newton-Raphson loop of
`OrbitalMechanics._solve_kepler_equation`: at each of the at most
`max_iterations` turns the residual `f = E - e·sin E - M` is tested against
`1e-10` and the loop breaks (returning the current iterate) when it is small;
otherwise the Newton update `E - f / (1 - e·cos E)` is taken. -/
noncomputable def keplerGo (M e : ℝ) : ℕ → ℝ → ℝ
  | 0, E => E
  | n + 1, E =>
    let f := E - e * Real.sin E - M
    if |f| < 1e-10 then E else keplerGo M e n (E - f / (1 - e * Real.cos E))

/-- `OrbitalMechanics._solve_kepler_equation(M, e, max_iterations=100)`,
seeded at `E = M`. -/
noncomputable def solve_kepler_equation (M e : ℝ) : ℝ := keplerGo M e 100 M

/-- `OrbitalMechanics.kepler_to_cartesian(a, e, i, omega, w, M, mu)`: converts
Kepler elements to Cartesian state.  The function performs no input
validation; it converts the four angle arguments with `np.radians`, solves
Kepler's equation, builds the orbital-plane state, and applies the rotation
`R_omega @ R_i @ R_w`.  Caveat on the float model: `Real.sqrt` returns 0 on
negative arguments where `np.sqrt` returns NaN, so this model is faithful
only where every square-root argument is non-negative — which holds on the
valid-element domain (`a > 0`, `0 ≤ e < 1`, `mu > 0`) and on the position
path of the degenerate evaluation below; no theorem in this file asserts a
velocity value that the source computes as NaN. -/
noncomputable def kepler_to_cartesian (a e i omega w M mu : ℝ) : Vec3 × Vec3 :=
  let i' := radians i
  let omega' := radians omega
  let w' := radians w
  let M' := radians M
  let E := solve_kepler_equation M' e
  let nu := 2 * atan2 (Real.sqrt (1 + e) * Real.sin (E / 2))
      (Real.sqrt (1 - e) * Real.cos (E / 2))
  let r := a * (1 - e * Real.cos E)
  let x_orb := r * Real.cos nu
  let y_orb := r * Real.sin nu
  let n := Real.sqrt (mu / a ^ 3)
  let vx_orb := -a * n * Real.sin E / (1 - e * Real.cos E)
  let vy_orb := a * n * Real.sqrt (1 - e ^ 2) * Real.cos E / (1 - e * Real.cos E)
  let pos_orb : Vec3 := (x_orb, y_orb, 0)
  let vel_orb : Vec3 := (vx_orb, vy_orb, 0)
  let R_omega : Mat3 :=
    ⟨Real.cos omega', -Real.sin omega', 0, Real.sin omega', Real.cos omega', 0, 0, 0, 1⟩
  let R_i : Mat3 :=
    ⟨1, 0, 0, 0, Real.cos i', -Real.sin i', 0, Real.sin i', Real.cos i'⟩
  let R_w : Mat3 :=
    ⟨Real.cos w', -Real.sin w', 0, Real.sin w', Real.cos w', 0, 0, 0, 1⟩
  let R := matMul (matMul R_omega R_i) R_w
  (matVec R pos_orb, matVec R vel_orb)

/-- `OrbitalMechanics.propagate_orbit(pos, vel, dt, mu)`: one explicit-Euler
step under inverse-square gravity. -/
noncomputable def propagate_orbit (pos vel : Vec3) (dt mu : ℝ) : Vec3 × Vec3 :=
  let r := norm3 pos
  let acc : Vec3 := (-mu * pos.1 / r ^ 3, -mu * pos.2.1 / r ^ 3, -mu * pos.2.2 / r ^ 3)
  let new_vel : Vec3 := (vel.1 + acc.1 * dt, vel.2.1 + acc.2.1 * dt, vel.2.2 + acc.2.2 * dt)
  let new_pos : Vec3 :=
    (pos.1 + new_vel.1 * dt, pos.2.1 + new_vel.2.1 * dt, pos.2.2 + new_vel.2.2 * dt)
  (new_pos, new_vel)

/-- The validation constraints of the `KeplerElements` request model
(`models.py`, pydantic `Field` bounds): `semi_major_axis > 0`,
`0 ≤ eccentricity < 1`, `0 ≤ inclination ≤ 180`, and the three angular
elements in `[0, 360)`. -/
def keplerElementsValid (a e i node argp M : ℚ) : Bool :=
  decide (0 < a) && decide (0 ≤ e) && decide (e < 1) &&
  decide (0 ≤ i) && decide (i ≤ 180) &&
  decide (0 ≤ node) && decide (node < 360) &&
  decide (0 ≤ argp) && decide (argp < 360) &&
  decide (0 ≤ M) && decide (M < 360)

/-- `ImpactPhysics.calculate_crater_diameter(energy, angle_deg, target_density,
gravity)`: π-scaling, `D = 1.25 · (E/(ρ·g))^(1/4) · sin(θ)^(1/3)`, returned
with depth `D/4` and rim height `D/10`.  The angle is converted with
`np.radians` and used as given: no clamping is applied. -/
noncomputable def calculate_crater_diameter (energy_joules impact_angle_deg target_density gravity : ℝ) :
    ℝ × ℝ × ℝ :=
  let angle_rad := radians impact_angle_deg
  let energy_density := energy_joules / (target_density * gravity)
  let diameter :=
    1.25 * (energy_density ^ ((1 : ℝ) / 4) * Real.sin angle_rad ^ ((1 : ℝ) / 3))
  (diameter, diameter / 4, diameter / 10)

/-- The initial wave height of `TsunamiPhysics.calculate_tsunami_height`:
10% tsunami efficiency, energy density over a fixed 1 km-radius impact area,
`0.1 · sqrt(energy_density / (1000 · 9.81))`. -/
noncomputable def tsunamiInitialHeight (impact_energy : ℝ) : ℝ :=
  let tsunami_energy := impact_energy * 0.1
  let impact_area := Real.pi * 1000 ^ 2
  let energy_density := tsunami_energy / impact_area
  0.1 * Real.sqrt (energy_density / (1000 * 9.81))

/-- `TsunamiPhysics.calculate_tsunami_height(impact_energy, water_depth,
distance_to_shore, shore_slope)`: when `distance_to_shore > 0` the initial
height is multiplied by geometric spreading `1/sqrt(distance_km)`, dissipation
`exp(-distance/100km)` and shoaling `1/sqrt(slope)`; otherwise it is returned
directly; the result passes through `max(0, ·)`.  (`water_depth` is accepted
but never read by the body.) -/
noncomputable def calculate_tsunami_height
    (impact_energy water_depth distance_to_shore shore_slope : ℝ) : ℝ :=
  let initial_height := tsunamiInitialHeight impact_energy
  let final_height :=
    if 0 < distance_to_shore then
      let geometric_factor := 1 / Real.sqrt (distance_to_shore / 1000)
      let dissipation_factor := Real.exp (-distance_to_shore / (100 * 1000))
      let shore_amplification := 1 / Real.sqrt shore_slope
      initial_height * geometric_factor * dissipation_factor * shore_amplification
    else initial_height
  max 0 final_height

/-- `DeflectionPhysics.calculate_miss_distance(asteroid_pos, asteroid_vel,
earth_pos, earth_radius)`: distance from Earth's centre minus Earth's radius.
The velocity argument is accepted (mirroring the source signature) but the
body never reads it. -/
noncomputable def calculate_miss_distance
    (asteroid_pos asteroid_vel earth_pos : Vec3) (earth_radius : ℝ) : ℝ :=
  let r : Vec3 :=
    (asteroid_pos.1 - earth_pos.1, asteroid_pos.2.1 - earth_pos.2.1,
     asteroid_pos.2.2 - earth_pos.2.2)
  let distance := norm3 r
  distance - earth_radius

/-- `np.linspace(start, stop, num)` over the rationals: `num` evenly spaced
samples including both endpoints. -/
def linspace (start stop : ℚ) (num : ℕ) : List ℚ :=
  (List.range num).map (fun (k : ℕ) => start + (k : ℚ) * (stop - start) / ((num : ℚ) - 1))

/-- `np.linspace` over the reals, used for the 32 ring-vertex angles. -/
noncomputable def linspaceR (start stop : ℝ) (num : ℕ) : List ℝ :=
  (List.range num).map (fun (k : ℕ) => start + (k : ℝ) * (stop - start) / ((num : ℝ) - 1))

/-- The 32-vertex circle written by both zone generators: vertices
`(lon + lon_offset·sin t, lat + lat_offset·cos t)` for the 32 sampled angles
`t`, emitted as `(longitude, latitude)` pairs. -/
noncomputable def ringCoords (center_lat center_lon lat_offset lon_offset : ℝ) :
    List (ℝ × ℝ) :=
  (linspaceR 0 (2 * Real.pi) 32).map
    (fun t => (center_lon + lon_offset * Real.sin t, center_lat + lat_offset * Real.cos t))

/-- `ColorPalettes.MMI_COLORS.get(mmi, "#000000")` (`config.py`). -/
def mmiColor (mmi : ℤ) : String :=
  if mmi = 1 then "#FFFFFF"
  else if mmi = 2 then "#FFFF00"
  else if mmi = 3 then "#FFA500"
  else if mmi = 4 then "#FF4500"
  else if mmi = 5 then "#FF0000"
  else if mmi = 6 then "#8B0000"
  else if mmi = 7 then "#800080"
  else if mmi = 8 then "#000080"
  else if mmi = 9 ∨ mmi = 10 ∨ mmi = 11 ∨ mmi = 12 then "#000000"
  else "#000000"

/-- The attenuation value of `calculate_mmi_zones` at a sampled distance:
`magnitude - 1.5·log10(dist) - 0.01·dist`, clamped into `[1, 12]` by
`max(1, min(12, mmi))`, then truncated by Python `int(..)`; the clamp makes
the value at least `1`, so truncation toward zero is the floor. -/
noncomputable def zoneMmi (magnitude : ℝ) (dist : ℚ) : ℤ :=
  ⌊max 1 (min 12 (magnitude - 1.5 * Real.logb 10 (dist : ℝ) - 0.01 * (dist : ℝ)))⌋

/-- One feature of the `calculate_mmi_zones` output (its `properties` and
polygon ring). -/
structure MmiZone where
  mmi : ℤ
  distance_km : ℚ
  color : String
  coordinates : List (ℝ × ℝ)

/-- `ImpactPhysics.calculate_mmi_zones(magnitude, epicenter_lat,
epicenter_lon, max_distance_km)`: 20 `linspace` samples from 1 km to
`max_distance_km`; the loop `continue`s on the first sample (`i == 0`) and
emits one ring feature per remaining sample, in sample order.  Ring offsets
are `dist/111` degrees of latitude and `dist/(111·cos(lat))` degrees of
longitude. -/
noncomputable def calculate_mmi_zones
    (magnitude : ℝ) (epicenter_lat epicenter_lon : ℝ) (max_distance_km : ℚ) :
    List MmiZone :=
  let distances := linspace 1 max_distance_km 20
  (distances.drop 1).map (fun (dist : ℚ) =>
    let lat_offset := (dist : ℝ) / 111
    let lon_offset := (dist : ℝ) / (111 * Real.cos (radians epicenter_lat))
    { mmi := zoneMmi magnitude dist
      distance_km := dist
      color := mmiColor (zoneMmi magnitude dist)
      coordinates := ringCoords epicenter_lat epicenter_lon lat_offset lon_offset })

/-- `ColorPalettes.TSUNAMI_COLORS.get(category, "#0066CC")` (`config.py`). -/
def tsunamiColor (category : String) : String :=
  if category = "low" then "#0066CC"
  else if category = "moderate" then "#00CC66"
  else if category = "high" then "#FFCC00"
  else if category = "extreme" then "#FF6600"
  else if category = "catastrophic" then "#CC0000"
  else "#0066CC"

/-- One feature of the `calculate_tsunami_zones` output. -/
structure TsunamiZone where
  height_m : ℚ
  category : String
  distance_km : ℚ
  color : String
  coordinates : List (ℝ × ℝ)

/-- `TsunamiPhysics.calculate_tsunami_zones(epicenter_lat, epicenter_lon,
max_height, max_distance_km)`: four severity bands at 80/60/40/20% of
`max_height`, in that order; bands with non-positive height are skipped;
each kept band reaches `distance_km = height·100` capped at
`max_distance_km`. -/
noncomputable def calculate_tsunami_zones
    (epicenter_lat epicenter_lon : ℝ) (max_height max_distance_km : ℚ) :
    List TsunamiZone :=
  let height_categories : List (ℚ × String) :=
    [(max_height * (8 / 10), "extreme"), (max_height * (6 / 10), "high"),
     (max_height * (4 / 10), "moderate"), (max_height * (2 / 10), "low")]
  height_categories.filterMap (fun hc =>
    if hc.1 ≤ 0 then none
    else
      let distance_km := min (hc.1 * 100) max_distance_km
      let lat_offset := (distance_km : ℝ) / 111
      let lon_offset := (distance_km : ℝ) / (111 * Real.cos (radians epicenter_lat))
      some { height_m := hc.1
             category := hc.2
             distance_km := distance_km
             color := tsunamiColor hc.2
             coordinates := ringCoords epicenter_lat epicenter_lon lat_offset lon_offset })

/-- A city record as consumed by `calculate_economic_impact`
(`economic_analysis.py`): coordinates, population, GDP per capita. -/
structure City where
  name : String
  country : String
  latitude : ℝ
  longitude : ℝ
  population : ℤ
  gdp_per_capita : ℚ

/-- An entry of the `cities_affected` list built by
`calculate_economic_impact`. -/
structure AffectedCity where
  name : String
  country : String
  latitude : ℝ
  longitude : ℝ
  population : ℤ
  gdp_per_capita : ℚ
  distance_from_impact : ℝ
  exposure_level : String

/-- The `EconomicImpact` result record of `economic_analysis.py`. -/
structure EconomicImpact where
  total_economic_loss : ℚ
  population_affected : ℤ
  cities_affected : List AffectedCity
  gdp_impact_percentage : ℚ

/-- `calculate_distance(lat1, lon1, lat2, lon2)` (`economic_analysis.py`):
haversine great-circle distance in kilometres with Earth radius 6371 km. -/
noncomputable def calculate_distance (lat1 lon1 lat2 lon2 : ℝ) : ℝ :=
  let R : ℝ := 6371
  let d_lat := radians (lat2 - lat1)
  let d_lon := radians (lon2 - lon1)
  let a := Real.sin (d_lat / 2) * Real.sin (d_lat / 2) +
      Real.cos (radians lat1) * Real.cos (radians lat2) *
      Real.sin (d_lon / 2) * Real.sin (d_lon / 2)
  let c := 2 * atan2 (Real.sqrt a) (Real.sqrt (1 - a))
  R * c

/-- The exposure-level chain of the `calculate_economic_impact` city loop
(lines 150-164): tested against the crater diameter, the blast radius, then
3× and 10× the blast radius; the fall-through case is `minimal`.  Returns the
`(exposure_level, loss_multiplier)` pair. -/
noncomputable def exposureFor (distance crater_diameter_km blast_radius_km : ℝ) :
    String × ℚ :=
  if distance ≤ crater_diameter_km then ("extreme", 95 / 100)
  else if distance ≤ blast_radius_km then ("high", 5 / 10)
  else if distance ≤ blast_radius_km * 3 then ("medium", 2 / 10)
  else if distance ≤ blast_radius_km * 10 then ("low", 5 / 100)
  else ("minimal", 1 / 100)

/-- The `AffectedCity` record built by the `calculate_economic_impact` city
loop for one city at a given distance. -/
noncomputable def affectedRecord (city : City) (distance : ℝ)
    (crater_diameter_km blast_radius_km : ℝ) : AffectedCity :=
  { name := city.name
    country := city.country
    latitude := city.latitude
    longitude := city.longitude
    population := city.population
    gdp_per_capita := city.gdp_per_capita
    distance_from_impact := distance
    exposure_level := (exposureFor distance crater_diameter_km blast_radius_km).1 }

/-- The `for city in major_cities` loop of `calculate_economic_impact`,
written as structural recursion on the city list.  Returns the
`cities_affected` list (in input order) together with the accumulated
`total_population_affected` and `total_economic_loss`. -/
noncomputable def economicLoop
    (impact_latitude impact_longitude crater_diameter_km blast_radius_km
      total_impact_radius : ℝ) :
    List City → List AffectedCity × ℤ × ℚ
  | [] => ([], 0, 0)
  | city :: rest =>
    if calculate_distance impact_latitude impact_longitude city.latitude city.longitude ≤
        total_impact_radius then
      (affectedRecord city
          (calculate_distance impact_latitude impact_longitude city.latitude city.longitude)
          crater_diameter_km blast_radius_km ::
        (economicLoop impact_latitude impact_longitude crater_diameter_km blast_radius_km
          total_impact_radius rest).1,
       city.population +
        (economicLoop impact_latitude impact_longitude crater_diameter_km blast_radius_km
          total_impact_radius rest).2.1,
       (city.population : ℚ) * city.gdp_per_capita *
          (exposureFor
            (calculate_distance impact_latitude impact_longitude city.latitude city.longitude)
            crater_diameter_km blast_radius_km).2 +
        (economicLoop impact_latitude impact_longitude crater_diameter_km blast_radius_km
          total_impact_radius rest).2.2)
    else
      economicLoop impact_latitude impact_longitude crater_diameter_km blast_radius_km
        total_impact_radius rest

/-- The `total_impact_radius` expression of `calculate_economic_impact`:
`max(blast_radius_km, tsunami_radius_km, crater_diameter_km * 2,
max_seismic_distance_km)`. -/
noncomputable def totalImpactRadius
    (crater_diameter_km blast_radius_km tsunami_radius_km
      max_seismic_distance_km : ℝ) : ℝ :=
  max (max (max blast_radius_km tsunami_radius_km) (crater_diameter_km * 2))
    max_seismic_distance_km

/-- The `total_world_gdp` sum of `calculate_economic_impact`:
`Σ population · gdp_per_capita` over all considered cities. -/
def totalWorldGdp (major_cities : List City) : ℚ :=
  (major_cities.map (fun city => (city.population : ℚ) * city.gdp_per_capita)).sum

/-- `calculate_economic_impact(impact_latitude, impact_longitude,
crater_diameter_km, blast_radius_km, tsunami_radius_km,
max_seismic_distance_km)` applied to an already-fetched city list
(`major_cities`; the fetching step is the excluded network collaborator).
Each city within `totalImpactRadius` is banded by `exposureFor`; the
GDP-impact percentage divides by `totalWorldGdp` only when that sum is
positive, else it is 0. -/
noncomputable def calculate_economic_impact
    (impact_latitude impact_longitude crater_diameter_km blast_radius_km
      tsunami_radius_km max_seismic_distance_km : ℝ)
    (major_cities : List City) : EconomicImpact :=
  { total_economic_loss :=
      (economicLoop impact_latitude impact_longitude crater_diameter_km blast_radius_km
        (totalImpactRadius crater_diameter_km blast_radius_km tsunami_radius_km
          max_seismic_distance_km) major_cities).2.2
    population_affected :=
      (economicLoop impact_latitude impact_longitude crater_diameter_km blast_radius_km
        (totalImpactRadius crater_diameter_km blast_radius_km tsunami_radius_km
          max_seismic_distance_km) major_cities).2.1
    cities_affected :=
      (economicLoop impact_latitude impact_longitude crater_diameter_km blast_radius_km
        (totalImpactRadius crater_diameter_km blast_radius_km tsunami_radius_km
          max_seismic_distance_km) major_cities).1
    gdp_impact_percentage :=
      if 0 < totalWorldGdp major_cities then
        (economicLoop impact_latitude impact_longitude crater_diameter_km blast_radius_km
          (totalImpactRadius crater_diameter_km blast_radius_km tsunami_radius_km
            max_seismic_distance_km) major_cities).2.2 / totalWorldGdp major_cities * 100
      else 0 }

/-! ### Claim C10: miss distance ignores the velocity argument -/

/-- C10 (confirmed): `calculate_miss_distance` is independent of the asteroid
velocity argument, and equals the norm of `position - earthPosition` minus
`earthRadius`, for every input. -/
theorem calculate_miss_distance_velocity_independent :
    ∀ (pos vel vel' earth_pos : Vec3) (earth_radius : ℝ),
      calculate_miss_distance pos vel earth_pos earth_radius =
        calculate_miss_distance pos vel' earth_pos earth_radius ∧
      calculate_miss_distance pos vel earth_pos earth_radius =
        norm3 (pos.1 - earth_pos.1, pos.2.1 - earth_pos.2.1, pos.2.2 - earth_pos.2.2) -
          earth_radius :=
  fun _ _ _ _ _ => ⟨rfl, rfl⟩

/-! ### Claim C8: propagation with dt = 0 is the identity on a Kepler state -/

/-- `propagate_orbit` at `dt = 0` returns its input state unchanged. -/
theorem propagate_orbit_dt_zero (pos vel : Vec3) (mu : ℝ) :
    propagate_orbit pos vel 0 mu = (pos, vel) := by
  unfold propagate_orbit
  simp

/-- C8 (confirmed): for valid Kepler elements (`a > 0`, `0 ≤ e < 1`),
`kepler_to_cartesian` followed by `propagate_orbit` with `dt = 0` returns the
original position and velocity unchanged. -/
theorem kepler_then_propagate_zero
    (a e i omega w M mu : ℝ) (ha : 0 < a) (he0 : 0 ≤ e) (he1 : e < 1) :
    propagate_orbit (kepler_to_cartesian a e i omega w M mu).1
        (kepler_to_cartesian a e i omega w M mu).2 0 mu =
      kepler_to_cartesian a e i omega w M mu :=
  propagate_orbit_dt_zero _ _ _

/-- Witness for C8 at the concrete elements `a = 1`, `e = 0`, all angles `0`,
`mu = 1`. -/
theorem kepler_then_propagate_zero_witness :
    propagate_orbit (kepler_to_cartesian 1 0 0 0 0 0 1).1
        (kepler_to_cartesian 1 0 0 0 0 0 1).2 0 1 =
      kepler_to_cartesian 1 0 0 0 0 0 1 :=
  kepler_then_propagate_zero 1 0 0 0 0 0 1 (by norm_num) (by norm_num) (by norm_num)

/-! ### Claim C9: tsunami height at zero shore distance, and non-negativity -/

/-- C9 (confirmed): for positive energy, water depth and shore slope,
`calculate_tsunami_height` at `distance_to_shore = 0` returns the initial wave
height with none of the three attenuation factors applied; and for every
input the returned height is non-negative. -/
theorem tsunami_height_zero_distance_and_nonneg
    (impact_energy water_depth shore_slope : ℝ)
    (hE : 0 < impact_energy) (hw : 0 < water_depth) (hs : 0 < shore_slope) :
    calculate_tsunami_height impact_energy water_depth 0 shore_slope =
        tsunamiInitialHeight impact_energy ∧
      ∀ E' w' d' s' : ℝ, 0 ≤ calculate_tsunami_height E' w' d' s' := by
  constructor
  · unfold calculate_tsunami_height
    simp only [lt_self_iff_false, if_false]
    refine max_eq_right ?_
    unfold tsunamiInitialHeight
    positivity
  · intro E' w' d' s'
    unfold calculate_tsunami_height
    exact le_max_left 0 _

/-- Witness for C9 at energy 1, depth 1, slope 1. -/
theorem tsunami_height_zero_distance_witness :
    calculate_tsunami_height 1 1 0 1 = tsunamiInitialHeight 1 ∧
      0 ≤ calculate_tsunami_height 2 3 4 5 := by
  have h := tsunami_height_zero_distance_and_nonneg 1 1 1
    (by norm_num) (by norm_num) (by norm_num)
  exact ⟨h.1, h.2 2 3 4 5⟩

/-! ### Claim C4: the crater-formula sine base is not clamped -/

/-- Evaluation fact: `radians 0 = 0`. -/
theorem radians_zero : radians 0 = 0 := by
  unfold radians; ring

/-- C4 counterexample: `calculate_crater_diameter` applies no clamping; at
impact angle `0°` (admitted by the request model's `ge=0` bound) the sine
base is `0`, not strictly positive, and the crater diameter collapses to `0`
even for positive energy. -/
theorem crater_angle_zero_base_not_positive_cx :
    Real.sin (radians 0) = 0 ∧ ¬ (0 < Real.sin (radians 0)) ∧
      calculate_crater_diameter 1 0 2500 9.81 = (0, 0, 0) := by
  have h0 : Real.sin (radians 0) = 0 := by rw [radians_zero, Real.sin_zero]
  refine ⟨h0, by rw [h0]; exact lt_irrefl 0, ?_⟩
  unfold calculate_crater_diameter
  simp only [radians_zero, Real.sin_zero,
    Real.zero_rpow (show (1 : ℝ) / 3 ≠ 0 by norm_num)]
  norm_num

/-- C4 as amended (proved): no clamping is performed — the formula uses
`sin(radians θ)` of the raw input angle, which is `0` at `θ = 0` — but within
the request-model range `(0°, 90°]` the base is strictly positive, and so is
the resulting crater diameter whenever the energy density is positive. -/
theorem crater_sine_base_positive_in_range (θ : ℝ) (h1 : 0 < θ) (h2 : θ ≤ 90) :
    0 < Real.sin (radians θ) ∧
      ∀ E ρ g : ℝ, 0 < E / (ρ * g) → 0 < (calculate_crater_diameter E θ ρ g).1 := by
  have hπ := Real.pi_pos
  have hrad_pos : 0 < radians θ := by
    unfold radians; positivity
  have hrad_lt : radians θ < Real.pi := by
    unfold radians
    nlinarith
  have hsin : 0 < Real.sin (radians θ) := Real.sin_pos_of_pos_of_lt_pi hrad_pos hrad_lt
  refine ⟨hsin, ?_⟩
  intro E ρ g hEd
  have hb : 0 < (E / (ρ * g)) ^ ((1 : ℝ) / 4) := Real.rpow_pos_of_pos hEd _
  have hc : 0 < Real.sin (radians θ) ^ ((1 : ℝ) / 3) := Real.rpow_pos_of_pos hsin _
  unfold calculate_crater_diameter
  have : (0 : ℝ) < 1.25 := by norm_num
  exact mul_pos this (mul_pos hb hc)

/-- Witness for the amended C4 at `θ = 45°`, energy 1, density 2500,
gravity 9.81. -/
theorem crater_sine_base_positive_witness :
    0 < Real.sin (radians 45) ∧ 0 < (calculate_crater_diameter 1 45 2500 9.81).1 := by
  have h := crater_sine_base_positive_in_range 45 (by norm_num) (by norm_num)
  exact ⟨h.1, h.2 1 2500 9.81 (by positivity)⟩

/-! ### Claim C3: no `InvalidOrbit` failure inside `kepler_to_cartesian` -/

/-- Evaluation fact: the Newton solver at `M = 0`, `e = 0` breaks on the
first residual test and returns `0`. -/
theorem solve_kepler_zero : solve_kepler_equation 0 0 = 0 := by
  unfold solve_kepler_equation
  have h100 : (100 : ℕ) = 99 + 1 := rfl
  rw [h100, keplerGo]
  norm_num

/-- C3 counterexample: for the degenerate input `a = -1 ≤ 0` (all other
elements `0`, `mu = 1`), `kepler_to_cartesian` does not fail with an
`InvalidOrbit` condition: the Newton solver still runs and the function
returns, with position component the concrete numeric triple `(-1, 0, 0)`.
Only the position is asserted: on its computation path every square-root
argument is non-negative, so the model agrees with the source there; the
velocity components of the source pass through `np.sqrt(-1) = nan` (still a
returned float array, not a failure) and are left out of the statement. -/
theorem kepler_nonpositive_axis_returns_state_cx :
    (-1 : ℝ) ≤ 0 ∧
      (kepler_to_cartesian (-1) 0 0 0 0 0 1).1 = (-1, 0, 0) := by
  refine ⟨by norm_num, ?_⟩
  unfold kepler_to_cartesian atan2 matMul matVec
  norm_num [radians_zero, solve_kepler_zero, Real.sin_zero, Real.cos_zero,
    Real.sqrt_one, Real.arctan_zero]

/-- C3 as amended (proved): the rejection of a non-positive semi-major axis
happens in the `KeplerElements` request model (pydantic field bound
`semi_major_axis > 0`), not inside `kepler_to_cartesian`: for every `a ≤ 0`
the request-model validation fails. -/
theorem nonpositive_axis_rejected_by_request_model
    (a e i node argp M : ℚ) (h : a ≤ 0) :
    keplerElementsValid a e i node argp M = false := by
  unfold keplerElementsValid
  rw [decide_eq_false (not_lt.mpr h)]
  simp

/-- Witness for the amended C3 at `a = -1`. -/
theorem nonpositive_axis_rejected_witness :
    keplerElementsValid (-1) 0 0 0 0 0 = false :=
  nonpositive_axis_rejected_by_request_model (-1) 0 0 0 0 0 (by norm_num)

/-! ### Claim C2: ordering of the tsunami-zone sequence -/

/-- Claim C2 as stated: for non-negative `max_height` and `max_distance_km`
the zone sequence is innermost first, i.e. `distance_km` strictly increases
along the returned list. -/
def claimC2 : Prop :=
  ∀ (lat lon : ℝ) (max_height max_distance_km : ℚ),
    0 ≤ max_height → 0 ≤ max_distance_km →
    List.Chain' (fun z1 z2 : TsunamiZone => z1.distance_km < z2.distance_km)
      (calculate_tsunami_zones lat lon max_height max_distance_km)

/-- C2 counterexample: at `max_height = 1`, `max_distance_km = 500` the four
zones are emitted extreme-band first with reaches `[80, 60, 40, 20]` km —
strictly decreasing, not increasing. -/
theorem tsunami_zones_not_innermost_first_cx : ¬ claimC2 := by
  intro h
  have hc := h 0 0 1 500 (by norm_num) (by norm_num)
  unfold calculate_tsunami_zones at hc
  norm_num [List.filterMap_cons, List.filterMap_nil, List.chain'_cons,
    List.chain'_singleton, min_def] at hc

/-- C2 as amended (proved): for non-negative `max_height` and
`max_distance_km`, the tsunami-zone sequence is ordered outermost first —
`distance_km` is non-increasing along the returned list. -/
theorem tsunami_zones_distance_nonincreasing
    (lat lon : ℝ) (max_height max_distance_km : ℚ)
    (h1 : 0 ≤ max_height) (h2 : 0 ≤ max_distance_km) :
    List.Chain' (fun z1 z2 : TsunamiZone => z2.distance_km ≤ z1.distance_km)
      (calculate_tsunami_zones lat lon max_height max_distance_km) := by
  rcases eq_or_lt_of_le h1 with hz | hpos
  · unfold calculate_tsunami_zones
    rw [← hz]
    norm_num
  · have c1 : ¬ (max_height * (8 / 10) ≤ 0) := by push_neg; nlinarith
    have c2 : ¬ (max_height * (6 / 10) ≤ 0) := by push_neg; nlinarith
    have c3 : ¬ (max_height * (4 / 10) ≤ 0) := by push_neg; nlinarith
    have c4 : ¬ (max_height * (2 / 10) ≤ 0) := by push_neg; nlinarith
    unfold calculate_tsunami_zones
    simp only [List.filterMap_cons, List.filterMap_nil, if_neg c1, if_neg c2, if_neg c3,
      if_neg c4, List.chain'_cons, List.chain'_singleton]
    refine ⟨?_, ?_, ?_, trivial⟩ <;>
      exact min_le_min (by nlinarith) le_rfl

/-- Witness for the amended C2 at `max_height = 1`, `max_distance_km = 500`. -/
theorem tsunami_zones_distance_nonincreasing_witness :
    List.Chain' (fun z1 z2 : TsunamiZone => z2.distance_km ≤ z1.distance_km)
      (calculate_tsunami_zones 0 0 1 500) :=
  tsunami_zones_distance_nonincreasing 0 0 1 500 (by norm_num) (by norm_num)

/-! ### Claim C5: ordering of the MMI-zone sequence -/

/-- The clamped attenuation value is antitone in the distance: farther
samples have no larger MMI. -/
theorem zoneMmi_antitone (magnitude : ℝ) (d1 d2 : ℚ) (h0 : 0 < d1) (h12 : d1 ≤ d2) :
    zoneMmi magnitude d2 ≤ zoneMmi magnitude d1 := by
  unfold zoneMmi
  apply Int.floor_le_floor
  apply max_le_max le_rfl
  apply min_le_min le_rfl
  have h0R : (0 : ℝ) < (d1 : ℝ) := by exact_mod_cast h0
  have h12R : (d1 : ℝ) ≤ (d2 : ℝ) := by exact_mod_cast h12
  have hlog : Real.logb 10 (d1 : ℝ) ≤ Real.logb 10 (d2 : ℝ) :=
    Real.logb_le_logb_of_le (by norm_num) h0R h12R
  linarith

/-- Claim C5 as stated: for every magnitude, epicenter and positive
`max_distance_km`, successive MMI zones have non-increasing MMI and strictly
increasing `distance_km`. -/
def claimC5 : Prop :=
  ∀ (magnitude lat lon : ℝ) (max_distance_km : ℚ), 0 < max_distance_km →
    List.Chain' (fun z1 z2 : MmiZone => z2.mmi ≤ z1.mmi ∧ z1.distance_km < z2.distance_km)
      (calculate_mmi_zones magnitude lat lon max_distance_km)

/-- C5 counterexample: for `max_distance_km = 1/2` (positive), the 20-point
`linspace` from 1 km runs downward, so the emitted distances strictly
decrease (`37/38` then `18/19`), refuting the strict-increase part. -/
theorem mmi_zones_not_increasing_cx : ¬ claimC5 := by
  intro h
  have hc := h 5 0 0 (1 / 2) (by norm_num)
  unfold calculate_mmi_zones linspace at hc
  rw [show List.range 20 = [0, 1, 2, 3, 4, 5, 6, 7, 8, 9, 10, 11, 12, 13, 14, 15, 16,
    17, 18, 19] from rfl] at hc
  simp only [List.map_cons, List.drop_succ_cons, List.drop_zero, List.chain'_cons] at hc
  have hlt := hc.1.2
  norm_num at hlt

/-- C5 as amended (proved): for `max_distance_km > 1` (so that the 20-point
sample grid actually runs outward; the source default is 1000), successive
zones of `calculate_mmi_zones` have non-increasing MMI and strictly
increasing `distance_km`. -/
theorem mmi_zones_monotone (magnitude lat lon : ℝ) (max_distance_km : ℚ)
    (h : 1 < max_distance_km) :
    List.Chain' (fun z1 z2 : MmiZone => z2.mmi ≤ z1.mmi ∧ z1.distance_km < z2.distance_km)
      (calculate_mmi_zones magnitude lat lon max_distance_km) := by
  unfold calculate_mmi_zones linspace
  rw [List.map_drop]
  apply List.Chain'.drop
  rw [List.map_map]
  rw [List.chain'_map]
  refine (List.chain'_range_succ _ 19).mpr ?_
  intro i hi
  simp only [Function.comp_apply]
  have hstep : (0 : ℚ) < (max_distance_km - 1) / (20 - 1) := by
    apply div_pos (by linarith) (by norm_num)
  have hcast : ((i : ℚ)) < ((i : ℚ) + 1) := by linarith
  constructor
  · apply zoneMmi_antitone
    · have : (0 : ℚ) ≤ (i : ℚ) * ((max_distance_km - 1) / (20 - 1)) :=
        mul_nonneg (Nat.cast_nonneg i) hstep.le
      rw [mul_div_assoc]
      push_cast
      nlinarith
    · rw [mul_div_assoc, mul_div_assoc]
      push_cast
      nlinarith
  · rw [mul_div_assoc, mul_div_assoc]
    push_cast
    nlinarith

/-- Witness for the amended C5 at magnitude 7, epicenter (0,0),
`max_distance_km = 1000` (the source default). -/
theorem mmi_zones_monotone_witness :
    List.Chain' (fun z1 z2 : MmiZone => z2.mmi ≤ z1.mmi ∧ z1.distance_km < z2.distance_km)
      (calculate_mmi_zones 7 0 0 1000) :=
  mmi_zones_monotone 7 0 0 1000 (by norm_num)

/-! ### Evaluation facts for the haversine distance -/

/-- Evaluation fact: `radians 90 = π/2`. -/
theorem radians_ninety : radians 90 = Real.pi / 2 := by
  unfold radians; ring

/-- The haversine distance from a point to itself is 0. -/
theorem calculate_distance_self (lat lon : ℝ) :
    calculate_distance lat lon lat lon = 0 := by
  unfold calculate_distance atan2
  norm_num [radians_zero, Real.sin_zero, Real.cos_zero, Real.sqrt_zero, Real.sqrt_one,
    Real.arctan_zero]

/-- The haversine distance from `(0°, 0°)` to `(0°, 90°)` is a quarter of the
great circle: `6371 · π/2` km. -/
theorem calculate_distance_ninety :
    calculate_distance 0 0 0 90 = 6371 * (Real.pi / 2) := by
  have hhalf : Real.sqrt (1 / 2) > 0 := Real.sqrt_pos.mpr (by norm_num)
  have harg : radians (90 - 0) / 2 = Real.pi / 4 := by
    unfold radians; ring
  have hmulself : Real.sqrt 2 / 2 * (Real.sqrt 2 / 2) = 1 / 2 := by
    rw [div_mul_div_comm, Real.mul_self_sqrt (by norm_num : (0 : ℝ) ≤ 2)]
    norm_num
  have hdiv : Real.sqrt (1 / 2) / Real.sqrt (1 / 2) = 1 := div_self (ne_of_gt hhalf)
  unfold calculate_distance atan2
  simp only [sub_zero, radians_zero, zero_div, Real.sin_zero, Real.cos_zero, zero_mul,
    mul_zero, one_mul, zero_add]
  rw [show radians 90 / 2 = Real.pi / 4 from by unfold radians; ring]
  rw [Real.sin_pi_div_four, hmulself]
  rw [show (1 : ℝ) - 1 / 2 = 1 / 2 from by norm_num]
  rw [if_pos hhalf, hdiv, Real.arctan_one]
  ring

/-- Numeric bounds for `6371 · π/2`: strictly above 10000 km and strictly
below 10035 km. -/
theorem quarter_circle_bounds :
    10000 < 6371 * (Real.pi / 2) ∧ 6371 * (Real.pi / 2) < 10035 := by
  constructor
  · nlinarith [Real.pi_gt_d6]
  · nlinarith [Real.pi_lt_d2]

/-! ### The city loop characterized -/

/-- Characterization of the `calculate_economic_impact` city loop: the
affected list is exactly the in-range cities (once each, in input order,
each with its single exposure record), the affected population is the sum of
the affected cities' populations, and the loss is the sum of the per-city
losses. -/
theorem economicLoop_spec (ilat ilon crater blast total : ℝ) (cities : List City) :
    (economicLoop ilat ilon crater blast total cities).1 =
        cities.filterMap (fun city =>
          if calculate_distance ilat ilon city.latitude city.longitude ≤ total then
            some (affectedRecord city
              (calculate_distance ilat ilon city.latitude city.longitude) crater blast)
          else none) ∧
      (economicLoop ilat ilon crater blast total cities).2.1 =
        (((economicLoop ilat ilon crater blast total cities).1).map
          (fun c => c.population)).sum ∧
      (economicLoop ilat ilon crater blast total cities).2.2 =
        (((economicLoop ilat ilon crater blast total cities).1).map
          (fun c => (c.population : ℚ) * c.gdp_per_capita *
            (exposureFor c.distance_from_impact crater blast).2)).sum := by
  induction cities with
  | nil => simp [economicLoop]
  | cons city rest ih =>
    by_cases hd : calculate_distance ilat ilon city.latitude city.longitude ≤ total
    · refine ⟨?_, ?_, ?_⟩ <;>
        simp [economicLoop, hd, List.filterMap_cons, affectedRecord, ih.1, ih.2.1, ih.2.2]
    · refine ⟨?_, ?_, ?_⟩ <;>
        simp [economicLoop, hd, List.filterMap_cons, ih.1, ih.2.1, ih.2.2]

/-! ### Claim C6: bands partition, population sum -/

/-- C6 (confirmed): the affected-city list of `calculate_economic_impact` is
exactly the in-range cities — each considered city within the outermost
extent contributes exactly one record carrying exactly one exposure band,
cities beyond the extent are excluded — and the reported affected population
is the sum of the affected cities' populations, with no city counted
twice. -/
theorem economic_bands_partition_and_population_sum
    (ilat ilon crater blast tsunami seismic : ℝ) (cities : List City) :
    (calculate_economic_impact ilat ilon crater blast tsunami seismic cities).population_affected =
        (((calculate_economic_impact ilat ilon crater blast tsunami seismic
          cities).cities_affected).map (fun c => c.population)).sum ∧
      (calculate_economic_impact ilat ilon crater blast tsunami seismic cities).cities_affected =
        cities.filterMap (fun city =>
          if calculate_distance ilat ilon city.latitude city.longitude ≤
              totalImpactRadius crater blast tsunami seismic then
            some (affectedRecord city
              (calculate_distance ilat ilon city.latitude city.longitude) crater blast)
          else none) := by
  have h := economicLoop_spec ilat ilon crater blast
    (totalImpactRadius crater blast tsunami seismic) cities
  exact ⟨h.2.1, h.1⟩

/-! ### Claim C7: GDP-impact percentage and the division guard -/

/-- C7 (confirmed): the GDP-impact percentage is total loss divided by
`Σ population·gdp` over all considered cities, times 100, whenever that sum
is positive; and with no city in range the result reports zero affected
population and a zero percentage, with the division guarded. -/
theorem gdp_percentage_formula_and_zero_guard
    (ilat ilon crater blast tsunami seismic : ℝ) (cities : List City) :
    (0 < totalWorldGdp cities →
      (calculate_economic_impact ilat ilon crater blast tsunami seismic
          cities).gdp_impact_percentage =
        (calculate_economic_impact ilat ilon crater blast tsunami seismic
          cities).total_economic_loss / totalWorldGdp cities * 100) ∧
      ((calculate_economic_impact ilat ilon crater blast tsunami seismic
          cities).cities_affected = [] →
        (calculate_economic_impact ilat ilon crater blast tsunami seismic
            cities).population_affected = 0 ∧
          (calculate_economic_impact ilat ilon crater blast tsunami seismic
            cities).gdp_impact_percentage = 0) := by
  constructor
  · intro hW
    show (if 0 < totalWorldGdp cities then _ / totalWorldGdp cities * 100 else 0) = _
    rw [if_pos hW]
    rfl
  · intro hempty
    have h := economicLoop_spec ilat ilon crater blast
      (totalImpactRadius crater blast tsunami seismic) cities
    have h1 : (economicLoop ilat ilon crater blast
        (totalImpactRadius crater blast tsunami seismic) cities).1 = [] := hempty
    have hpop : (economicLoop ilat ilon crater blast
        (totalImpactRadius crater blast tsunami seismic) cities).2.1 = 0 := by
      rw [h.2.1, h1]; simp
    have hloss : (economicLoop ilat ilon crater blast
        (totalImpactRadius crater blast tsunami seismic) cities).2.2 = 0 := by
      rw [h.2.2, h1]; simp
    exact ⟨hpop, by
      show (if 0 < totalWorldGdp cities then _ / totalWorldGdp cities * 100 else 0) = 0
      rw [hloss]
      split_ifs <;> norm_num⟩

/-! ### Claim C1: the exposure-band thresholds -/

/-- The five exposure bands as a distance-threshold chain: first band up to
`extreme_threshold`, then the blast radius, then 3 and 10 times the blast
radius, with `minimal` as the fall-through.  Claim C1 takes the first
threshold to be the crater radius (half the crater diameter); the code uses
the `crater_diameter_km` argument itself. -/
noncomputable def distanceBand (distance extreme_threshold blast_radius_km : ℝ) : String :=
  if distance ≤ extreme_threshold then "extreme"
  else if distance ≤ blast_radius_km then "high"
  else if distance ≤ blast_radius_km * 3 then "medium"
  else if distance ≤ blast_radius_km * 10 then "low"
  else "minimal"

/-- The band label computed by the code's `exposureFor` chain is
`distanceBand` at the crater-diameter threshold. -/
theorem exposureFor_fst (distance crater blast : ℝ) :
    (exposureFor distance crater blast).1 = distanceBand distance crater blast := by
  unfold exposureFor distanceBand
  split_ifs <;> rfl

/-- Claim C1 as stated: every affected city is labelled by the band chain
whose first (`extreme`) threshold is the crater radius — half the
crater-diameter argument — and affected cities lie within the outermost
extent. -/
def claimC1 : Prop :=
  ∀ (ilat ilon crater blast tsunami seismic : ℝ) (cities : List City) (c : AffectedCity),
    c ∈ (calculate_economic_impact ilat ilon crater blast tsunami seismic
        cities).cities_affected →
      c.exposure_level = distanceBand c.distance_from_impact (crater / 2) blast ∧
        c.distance_from_impact ≤ totalImpactRadius crater blast tsunami seismic

/-- A concrete city a quarter great circle (about 10007.5 km) from the
origin. -/
noncomputable def cityQuarter : City :=
  { name := "X", country := "C", latitude := 0, longitude := 90,
    population := 1, gdp_per_capita := 1 }

/-- A concrete city at the impact point itself. -/
noncomputable def cityOrigin : City :=
  { name := "O", country := "C", latitude := 0, longitude := 0,
    population := 1, gdp_per_capita := 1 }

/-- C1 counterexample: with crater diameter 20000 km and blast radius
20000 km, the city at distance `6371·π/2 ≈ 10007.5` km lies beyond the crater
radius (10000 km) but within the blast radius, so the claim as stated puts it
in the `high` band; the code compares against the crater diameter and labels
it `extreme`. -/
theorem extreme_band_uses_crater_diameter_cx : ¬ claimC1 := by
  intro h
  have hD := calculate_distance_ninety
  have hb := quarter_circle_bounds
  have hT : totalImpactRadius 20000 20000 0 1000 = 40000 := by
    unfold totalImpactRadius; norm_num [max_def]
  have hd40 : calculate_distance 0 0 cityQuarter.latitude cityQuarter.longitude ≤
      totalImpactRadius 20000 20000 0 1000 := by
    simp only [cityQuarter]
    rw [hD, hT]; linarith [hb.2]
  have hmem : affectedRecord cityQuarter
      (calculate_distance 0 0 cityQuarter.latitude cityQuarter.longitude) 20000 20000 ∈
      (calculate_economic_impact 0 0 20000 20000 0 1000 [cityQuarter]).cities_affected := by
    show _ ∈ (economicLoop 0 0 20000 20000 (totalImpactRadius 20000 20000 0 1000)
      [cityQuarter]).1
    unfold economicLoop
    rw [if_pos hd40]
    exact List.mem_cons_self _ _
  have hc := h 0 0 20000 20000 0 1000 [cityQuarter] _ hmem
  have hl := hc.1
  have hD20 : calculate_distance 0 0 cityQuarter.latitude cityQuarter.longitude ≤ 20000 := by
    simp only [cityQuarter]; rw [hD]; linarith [hb.2]
  have hD10 : ¬ (calculate_distance 0 0 cityQuarter.latitude cityQuarter.longitude ≤
      20000 / 2) := by
    simp only [cityQuarter]; rw [hD]; push_neg; linarith [hb.1]
  simp only [affectedRecord] at hl
  unfold exposureFor distanceBand at hl
  simp only [if_pos hD20, if_neg hD10] at hl
  simp at hl

/-- C1 as amended (proved): every affected city is labelled by the
band chain whose first (`extreme`) threshold is the crater-diameter argument
itself — `extreme` up to `crater_diameter_km`, `high` up to the blast radius,
`medium` up to 3×, `low` up to 10×, `minimal` beyond — and every affected
city lies within the outermost extent (cities beyond it are excluded). -/
theorem exposure_level_follows_crater_diameter
    (ilat ilon crater blast tsunami seismic : ℝ) (cities : List City) (c : AffectedCity)
    (hc : c ∈ (calculate_economic_impact ilat ilon crater blast tsunami seismic
      cities).cities_affected) :
    c.exposure_level = distanceBand c.distance_from_impact crater blast ∧
      c.distance_from_impact ≤ totalImpactRadius crater blast tsunami seismic := by
  have hc0 : c ∈ (economicLoop ilat ilon crater blast
      (totalImpactRadius crater blast tsunami seismic) cities).1 := hc
  rw [(economicLoop_spec ilat ilon crater blast
    (totalImpactRadius crater blast tsunami seismic) cities).1] at hc0
  obtain ⟨city, hmem, hsome⟩ := List.mem_filterMap.mp hc0
  by_cases hd : calculate_distance ilat ilon city.latitude city.longitude ≤
      totalImpactRadius crater blast tsunami seismic
  · rw [if_pos hd] at hsome
    simp only [Option.some.injEq] at hsome
    subst hsome
    constructor
    · simp only [affectedRecord]
      exact exposureFor_fst _ crater blast
    · simp only [affectedRecord]
      exact hd
  · rw [if_neg hd] at hsome
    exact absurd hsome (by simp)

/-- Witness for the amended C1: the city at the impact point (distance 0)
with crater diameter, blast, seismic radii 1, 1, 1 is banded `extreme` and
lies within the extent. -/
theorem exposure_level_follows_crater_diameter_witness :
    (affectedRecord cityOrigin
        (calculate_distance 0 0 cityOrigin.latitude cityOrigin.longitude) 1 1).exposure_level =
      distanceBand (affectedRecord cityOrigin
        (calculate_distance 0 0 cityOrigin.latitude cityOrigin.longitude)
          1 1).distance_from_impact 1 1 ∧
      (affectedRecord cityOrigin
        (calculate_distance 0 0 cityOrigin.latitude cityOrigin.longitude)
          1 1).distance_from_impact ≤ totalImpactRadius 1 1 0 1 := by
  apply exposure_level_follows_crater_diameter 0 0 1 1 0 1 [cityOrigin]
  show _ ∈ (economicLoop 0 0 1 1 (totalImpactRadius 1 1 0 1) [cityOrigin]).1
  have hd : calculate_distance 0 0 cityOrigin.latitude cityOrigin.longitude ≤
      totalImpactRadius 1 1 0 1 := by
    have hT : totalImpactRadius 1 1 0 1 = 2 := by
      unfold totalImpactRadius; norm_num [max_def]
    simp only [cityOrigin]
    rw [calculate_distance_self, hT]; norm_num
  unfold economicLoop
  rw [if_pos hd]
  exact List.mem_cons_self _ _

/-- Witness for C7 at a concrete scenario with one city far outside the
extent: the percentage formula holds (the world-GDP sum is 1 > 0), no city is
in range, and the reported exposure is zero. -/
theorem gdp_percentage_formula_witness :
    (calculate_economic_impact 0 0 1 1 1 1 [cityQuarter]).gdp_impact_percentage =
        (calculate_economic_impact 0 0 1 1 1 1 [cityQuarter]).total_economic_loss /
          totalWorldGdp [cityQuarter] * 100 ∧
      (calculate_economic_impact 0 0 1 1 1 1 [cityQuarter]).population_affected = 0 ∧
      (calculate_economic_impact 0 0 1 1 1 1 [cityQuarter]).gdp_impact_percentage = 0 := by
  have h := gdp_percentage_formula_and_zero_guard 0 0 1 1 1 1 [cityQuarter]
  have hW : 0 < totalWorldGdp [cityQuarter] := by
    unfold totalWorldGdp
    simp [cityQuarter]
  have hfar : ¬ (calculate_distance 0 0 cityQuarter.latitude cityQuarter.longitude ≤
      totalImpactRadius 1 1 1 1) := by
    have hT : totalImpactRadius 1 1 1 1 = 2 := by
      unfold totalImpactRadius; norm_num [max_def]
    simp only [cityQuarter]
    rw [calculate_distance_ninety, hT]
    push_neg
    linarith [quarter_circle_bounds.1]
  have hempty : (calculate_economic_impact 0 0 1 1 1 1 [cityQuarter]).cities_affected = [] := by
    show (economicLoop 0 0 1 1 (totalImpactRadius 1 1 1 1) [cityQuarter]).1 = []
    unfold economicLoop
    rw [if_neg hfar]
    rfl
  exact ⟨h.1 hW, (h.2 hempty).1, (h.2 hempty).2⟩

end Meteor
